import Mathlib

/-!
# cx-content-moderation: the Dialogflow CX webhook for the Content Moderation processor

A shallow embedding of `cx-content-moderation/main.go`.

* Go `map[string]T` values are association lists with first-match lookup and
  replace-or-append assignment; a nil map is `none`.
* Go pointers that the code dereferences (`resp`, `resp.Document`, the elements of
  `Entities`) are `Option`s, and a nil dereference is the outcome `panicked`.
* The collaborators outside the repository (the Document AI client, the `ezcx`
  response, the process environment) are the fields of `Env`; every call the code
  makes to them is recorded, in order, in a trace of `Event`s.
* A `float32` is carried as its bit pattern: the code only moves scores around.
-/

namespace CxContentModeration

/-! ## Data model -/

/-- A Go `float32`, as its IEEE-754 bit pattern. -/
structure float32 where
  bits : Nat
  deriving DecidableEq, Repr

/-- A Go `error` value (non-nil), identified by its message. -/
structure GoError where
  msg : String
  deriving DecidableEq, Repr

/-- A non-nil Go `map[string]α`. -/
abbrev GoMap (α : Type) := List (String × α)

/-- The Go expression `m[k]` with the comma-ok form: the value stored under `k`, if any. -/
def GoMap.lookup {α : Type} (m : GoMap α) (k : String) : Option α :=
  match m with
  | [] => none
  | (k', v) :: rest => if k' = k then some v else GoMap.lookup rest k

/-- The Go statement `m[k] = v`: overwrite the entry of `k`, or add one. -/
def GoMap.set {α : Type} (m : GoMap α) (k : String) (v : α) : GoMap α :=
  match m with
  | [] => [(k, v)]
  | (k', v') :: rest => if k' = k then (k, v) :: rest else (k', v') :: GoMap.set rest k v

/-- The keys of a map. -/
def GoMap.keys {α : Type} (m : GoMap α) : List String :=
  m.map Prod.fst

/-- A Go `interface{}` value as it occurs in session parameters. -/
inductive Value where
  | null
  | bool (b : Bool)
  | number (bits : Nat)
  | string (s : String)
  | f32 (f : float32)
  | list (xs : List Value)
  | map (m : List (String × Value))

/-- The `documentaipb.Document_Entity` fields the handler reads. -/
structure Entity where
  type : String
  confidence : float32
  deriving DecidableEq, Repr

/-- The getter `(*Document_Entity).GetType`: nil-safe, `""` on a nil receiver. -/
def Entity.GetType (x : Option Entity) : String :=
  match x with
  | some e => e.type
  | none => ""

/-- The getter `(*Document_Entity).GetConfidence`: nil-safe, `0` on a nil receiver. -/
def Entity.GetConfidence (x : Option Entity) : float32 :=
  match x with
  | some e => e.confidence
  | none => ⟨0⟩

/-- The `documentaipb.Document` fields in play: text, MIME type, and `Entities []*Entity`. -/
structure Document where
  text : String
  mimeType : String
  entities : List (Option Entity)
  deriving DecidableEq, Repr

/-- The `documentaipb.ProcessResponse`: `Document *Document`. -/
structure ProcessResponse where
  document : Option Document
  deriving DecidableEq, Repr

/-- The `documentaipb.ProcessRequest` with an inline-document source and a processor name. -/
structure ProcessRequest where
  inlineDocument : Document
  name : String
  deriving DecidableEq, Repr

/-- The `ezcx.WebhookRequest`, as what `GetText` and `GetSessionParameters` return. -/
structure WebhookRequest where
  text : String
  sessionParameters : Option (GoMap Value)

/-- The getter `req.GetText()`. -/
def WebhookRequest.GetText (req : WebhookRequest) : String := req.text

/-- The getter `req.GetSessionParameters()`. -/
def WebhookRequest.GetSessionParameters (req : WebhookRequest) : Option (GoMap Value) :=
  req.sessionParameters

/-! ## Collaborators and effects -/

/-- The collaborators outside the repository. `Res` is the `ezcx.WebhookResponse`. -/
structure Env (Res : Type) where
  -- the process environment read by `os.LookupEnv`
  environ : String → Option String
  -- the error of `documentai.NewDocumentProcessorClient` at an endpoint, `none` on success
  newDocumentProcessorClient : String → Option GoError
  -- the pair `(resp, err)` that `c.ProcessDocument` returns
  processDocument : ProcessRequest → Option ProcessResponse × Option GoError
  -- the response after `res.AddSessionParameters(params)` and the error it returns
  addSessionParameters : Res → GoMap Value → Res × Option GoError

/-- An argument of a `log.Printf` call. -/
inductive LogArg (Res : Type) where
  | err (e : GoError)
  | res (r : Res)

/-- The observable calls that the program makes, one constructor per call site. -/
inductive Event (Res : Type) where
  | logPrintf (format : String) (args : List (LogArg Res))
  | logFatal (msg : String)
  | newDocumentProcessorClient (endpoint : String)
  | processDocument (req : ProcessRequest)
  | close
  | addSessionParameters (params : GoMap Value)
  | newServer (addr : String)
  | handleCx (pattern : String)
  | listenAndServe

/-- How a Go function call ends: it returns its results, or it panics. -/
inductive Outcome (α : Type) where
  | returned (a : α)
  | panicked

/-- The run of `analyzeCommentHandler`: calls made, the response afterwards, the result. -/
structure HandlerRun (Res : Type) where
  trace : List (Event Res)
  res : Res
  outcome : Outcome (Option GoError)

/-- The run of `rateToxicityContentModeration`: calls made and the returned `(resp, err)`. -/
structure RateRun (Res : Type) where
  trace : List (Event Res)
  resp : Option ProcessResponse
  err : Option GoError

/-! ## The program -/

/-- The constant `location`. -/
def location : String := "us"

/-- The function `apiEndpoint`: `fmt.Sprintf("%s-documentai.googleapis.com:443", location)`. -/
def apiEndpoint : String := location ++ "-documentai.googleapis.com:443"

/-- The call `os.LookupEnv`: the value and whether the variable is set. -/
def LookupEnv (environ : String → Option String) (key : String) : String × Bool :=
  match environ key with
  | some v => (v, true)
  | none => ("", false)

/-- The function `envCheck`: the variable's value, or the default when unset or empty. -/
def envCheck (environ : String → Option String) (environmentVariable defaultVar : String) :
    String :=
  let (envar, ok) := LookupEnv environ environmentVariable
  if envar = "" ∨ ¬ ok then defaultVar else envar

/-- The package variable `contentModerationProcessorName`. -/
def contentModerationProcessorName (environ : String → Option String) : String :=
  envCheck environ "CONTENT_MODERATION_NAME" ""

/-- The package variable `port`. -/
def port (environ : String → Option String) : String :=
  envCheck environ "PORT" "8080"

/-- The `req` literal of `rateToxicityContentModeration`: an inline document holding the
content as `text/plain`, addressed to the configured processor. -/
def processRequest (environ : String → Option String) (content : String) : ProcessRequest :=
  { inlineDocument := { text := content, mimeType := "text/plain", entities := [] }
    name := contentModerationProcessorName environ }

/-- The function `rateToxicityContentModeration`. -/
def rateToxicityContentModeration {Res : Type} (env : Env Res) (content : String) :
    RateRun Res :=
  match env.newDocumentProcessorClient apiEndpoint with
  | some err =>
    { trace := [Event.newDocumentProcessorClient apiEndpoint,
                Event.logPrintf "error creating Document Processor client: %v" [LogArg.err err]]
      resp := some { document := none }
      err := some err }
  | none =>
    let req := processRequest env.environ content
    let (resp, err) := env.processDocument req
    { trace := [Event.newDocumentProcessorClient apiEndpoint, Event.processDocument req,
                Event.close]
      resp := resp
      err := err }

/-- The loop of `analyzeCommentHandler` that flattens the entities into `attributes`. -/
def attributesOf (entities : List (Option Entity)) : GoMap Value :=
  entities.foldl
    (fun attributes entity =>
      GoMap.set attributes (Entity.GetType entity) (Value.f32 (Entity.GetConfidence entity)))
    []

/-- The lines of `analyzeCommentHandler` that make `params` when it is nil and then assign
`params["content-moderation"] = attributes`. -/
def sessionParamsWith (params : Option (GoMap Value)) (attributes : GoMap Value) :
    GoMap Value :=
  let params : GoMap Value :=
    match params with
    | none => []
    | some m => m
  GoMap.set params "content-moderation" (Value.map attributes)

/-- The function `analyzeCommentHandler`. -/
def analyzeCommentHandler {Res : Type} (env : Env Res) (res : Res) (req : WebhookRequest) :
    HandlerRun Res :=
  let params := req.GetSessionParameters
  let text := req.GetText
  if text = "" then
    { trace := [], res := res, outcome := Outcome.returned (some ⟨"no text provided"⟩) }
  else
    let r := rateToxicityContentModeration env text
    match r.err with
    | some err =>
      { trace := r.trace ++ [Event.logPrintf "unable to process document: %v" [LogArg.err err]]
        res := res
        outcome := Outcome.returned (some err) }
    | none =>
      match r.resp with
      | none => { trace := r.trace, res := res, outcome := Outcome.panicked }
      | some resp =>
        match resp.document with
        | none => { trace := r.trace, res := res, outcome := Outcome.panicked }
        | some document =>
          let attributes := attributesOf document.entities
          let params := sessionParamsWith params attributes
          let (res', err) := env.addSessionParameters res params
          let logErr : List (Event Res) :=
            match err with
            | some e =>
              [Event.logPrintf "unable to add content-moderation session params: %v"
                [LogArg.err e]]
            | none => []
          { trace := r.trace ++ [Event.addSessionParameters params] ++ logErr ++
              [Event.logPrintf "%+v" [LogArg.res res']]
            res := res'
            outcome := Outcome.returned none }

/-- How `main` ends: `log.Fatal` exits the process, or `ListenAndServe` was reached. -/
inductive MainEnd where
  | fatal
  | served
  deriving DecidableEq, Repr

/-- The run of `main`: the calls made and how it ended. -/
structure MainRun (Res : Type) where
  trace : List (Event Res)
  ending : MainEnd

/-- The function `main`. -/
def main {Res : Type} (env : Env Res) : MainRun Res :=
  if contentModerationProcessorName env.environ = "" then
    { trace := [Event.logPrintf "cx-content-moderation" [],
                Event.logFatal "need to provide CONTENT_MODERATION_NAME reference to name of Content Moderation API Document Processor name"]
      ending := MainEnd.fatal }
  else
    { trace := [Event.logPrintf "cx-content-moderation" [],
                Event.newServer (":" ++ port env.environ),
                Event.handleCx "/analyze",
                Event.listenAndServe]
      ending := MainEnd.served }

/-! ## Observations on traces -/

/-- The maps handed to `AddSessionParameters`, in call order. -/
def handedParams {Res : Type} (trace : List (Event Res)) : List (GoMap Value) :=
  trace.filterMap fun e =>
    match e with
    | Event.addSessionParameters p => some p
    | _ => none

/-- The requests sent with `ProcessDocument`, in call order. -/
def processCalls {Res : Type} (trace : List (Event Res)) : List ProcessRequest :=
  trace.filterMap fun e =>
    match e with
    | Event.processDocument r => some r
    | _ => none

/-- The endpoints at which a Document AI client was requested, in call order. -/
def clientCalls {Res : Type} (trace : List (Event Res)) : List String :=
  trace.filterMap fun e =>
    match e with
    | Event.newDocumentProcessorClient ep => some ep
    | _ => none

/-- Whether the event is one of the three server start-up calls. -/
def Event.isServerCall {Res : Type} (e : Event Res) : Bool :=
  match e with
  | Event.newServer _ => true
  | Event.handleCx _ => true
  | Event.listenAndServe => true
  | _ => false

/-! ## Concrete collaborators for the examples -/

/-- An environment that sets `CONTENT_MODERATION_NAME` to `name` and nothing else. -/
def sampleEnviron (name : Option String) : String → Option String :=
  fun key => if key = "CONTENT_MODERATION_NAME" then name else none

/-- Collaborators with fixed outcomes. The response is represented by the session
parameters it carries; a merge that succeeds assigns every handed entry, a merge that
fails leaves the response as it was. -/
def sampleEnv (name : Option String) (clientErr : Option GoError)
    (processed : Option ProcessResponse × Option GoError) (mergeErr : Option GoError) :
    Env (GoMap Value) :=
  { environ := sampleEnviron name
    newDocumentProcessorClient := fun _ => clientErr
    processDocument := fun _ => processed
    addSessionParameters := fun res params =>
      match mergeErr with
      | some e => (res, some e)
      | none => (params.foldl (fun r kv => GoMap.set r kv.1 kv.2) res, none) }

/-- A successful `ProcessDocument` outcome carrying the given entities. -/
def classified (entities : List (Option Entity)) : Option ProcessResponse × Option GoError :=
  (some { document := some { text := "", mimeType := "", entities := entities } }, none)

/-- The entities `TOXIC: 0.92` and `INSULT: 0.87`. -/
def distinctEntities : List (Option Entity) :=
  [some { type := "TOXIC", confidence := ⟨1064011039⟩ },
   some { type := "INSULT", confidence := ⟨1063172178⟩ }]

/-- The entities `TOXIC: 0.1` and `TOXIC: 0.9`: one attribute name, reported twice. -/
def repeatedEntities : List (Option Entity) :=
  [some { type := "TOXIC", confidence := ⟨1036831949⟩ },
   some { type := "TOXIC", confidence := ⟨1063675494⟩ }]

/-- A request with the given text and session parameters. -/
def sampleRequest (params : Option (GoMap Value)) : WebhookRequest :=
  { text := "you are worthless", sessionParameters := params }

/-- Inbound session parameters of a later turn: a user name, and the
"content-moderation" entry a previous turn left. -/
def laterTurnParams : GoMap Value :=
  [("user", Value.string "ann"), ("content-moderation", Value.string "stale")]

/-! ## Maps -/

theorem GoMap.lookup_set_same {α : Type} (m : GoMap α) (k : String) (v : α) :
    GoMap.lookup (GoMap.set m k v) k = some v := by
  induction m with
  | nil => simp [GoMap.set, GoMap.lookup]
  | cons hd tl ih =>
    obtain ⟨k', v'⟩ := hd
    by_cases h : k' = k
    · simp [GoMap.set, GoMap.lookup, h]
    · simp [GoMap.set, GoMap.lookup, h, ih]

theorem GoMap.lookup_set_other {α : Type} (m : GoMap α) (k j : String) (v : α) (hj : j ≠ k) :
    GoMap.lookup (GoMap.set m k v) j = GoMap.lookup m j := by
  induction m with
  | nil =>
    have hk : ¬ k = j := fun h => hj h.symm
    simp [GoMap.set, GoMap.lookup, hk]
  | cons hd tl ih =>
    obtain ⟨k', v'⟩ := hd
    by_cases h : k' = k
    · have hk : ¬ k = j := fun h => hj h.symm
      subst h
      simp [GoMap.set, GoMap.lookup, hk]
    · by_cases h2 : k' = j
      · subst h2
        simp [GoMap.set, GoMap.lookup, h]
      · simp [GoMap.set, GoMap.lookup, h, h2, ih]

theorem GoMap.mem_keys_set {α : Type} (m : GoMap α) (k j : String) (v : α) :
    j ∈ GoMap.keys (GoMap.set m k v) ↔ j = k ∨ j ∈ GoMap.keys m := by
  induction m with
  | nil => simp [GoMap.set, GoMap.keys]
  | cons hd tl ih =>
    obtain ⟨k', v'⟩ := hd
    by_cases h : k' = k
    · subst h
      simp [GoMap.set, GoMap.keys]
    · have ih' : j ∈ List.map Prod.fst (GoMap.set tl k v) ↔ j = k ∨ j ∈ List.map Prod.fst tl := ih
      simp only [GoMap.set, GoMap.keys, h, if_false, List.map_cons, List.mem_cons, ih']
      tauto

theorem GoMap.set_of_not_mem {α : Type} (m : GoMap α) (k : String) (v : α)
    (hk : k ∉ GoMap.keys m) : GoMap.set m k v = m ++ [(k, v)] := by
  induction m with
  | nil => simp [GoMap.set]
  | cons hd tl ih =>
    obtain ⟨k', v'⟩ := hd
    have h1 : ¬ k' = k := by
      intro h
      apply hk
      simp [GoMap.keys, h]
    have h2 : k ∉ GoMap.keys tl := by
      intro h
      apply hk
      simp only [GoMap.keys, List.map_cons, List.mem_cons]
      exact Or.inr h
    simp [GoMap.set, h1, ih h2]

theorem GoMap.nodup_keys_set {α : Type} (m : GoMap α) (k : String) (v : α)
    (hm : (GoMap.keys m).Nodup) : (GoMap.keys (GoMap.set m k v)).Nodup := by
  induction m with
  | nil => simp [GoMap.set, GoMap.keys]
  | cons hd tl ih =>
    obtain ⟨k', v'⟩ := hd
    have hm' : k' ∉ GoMap.keys tl ∧ (GoMap.keys tl).Nodup := by
      simpa [GoMap.keys] using hm
    by_cases h : k' = k
    · subst h
      simpa [GoMap.set, GoMap.keys] using hm
    · have hnot : k' ∉ GoMap.keys (GoMap.set tl k v) := by
        rw [GoMap.mem_keys_set]
        rintro (h3 | h3)
        · exact h h3
        · exact hm'.1 h3
      have hnd : (GoMap.keys (GoMap.set tl k v)).Nodup := ih hm'.2
      have hrw : GoMap.keys (GoMap.set ((k', v') :: tl) k v)
          = k' :: GoMap.keys (GoMap.set tl k v) := by
        simp [GoMap.set, GoMap.keys, h]
      rw [hrw]
      exact List.nodup_cons.mpr ⟨hnot, hnd⟩

theorem GoMap.lookup_isSome_iff {α : Type} (m : GoMap α) (k : String) :
    (∃ v, GoMap.lookup m k = some v) ↔ k ∈ GoMap.keys m := by
  induction m with
  | nil => simp [GoMap.lookup, GoMap.keys]
  | cons hd tl ih =>
    obtain ⟨k', v'⟩ := hd
    have ih' : (∃ v, GoMap.lookup tl k = some v) ↔ k ∈ List.map Prod.fst tl := ih
    by_cases h : k' = k
    · simp [GoMap.lookup, GoMap.keys, h]
    · have h' : ¬ k = k' := fun e => h e.symm
      simp only [GoMap.lookup, GoMap.keys, h, h', if_false, List.map_cons, List.mem_cons,
        false_or, ih']

theorem GoMap.mem_of_lookup {α : Type} (m : GoMap α) (k : String) (v : α)
    (h : GoMap.lookup m k = some v) : (k, v) ∈ m := by
  induction m with
  | nil => simp [GoMap.lookup] at h
  | cons hd tl ih =>
    obtain ⟨k', v'⟩ := hd
    by_cases hk : k' = k
    · subst hk
      simp only [GoMap.lookup, if_true, Option.some.injEq] at h
      subst h
      exact List.mem_cons_self _ _
    · simp only [GoMap.lookup, hk, if_false] at h
      exact List.mem_cons_of_mem _ (ih h)

/-! ## The flattening loop -/

/-- The function `attributesOf` as a left fold of map assignments from the empty map. -/
theorem attributesOf_eq (entities : List (Option Entity)) :
    attributesOf entities = entities.foldl
      (fun acc x => GoMap.set acc (Entity.GetType x) (Value.f32 (Entity.GetConfidence x))) [] :=
  rfl

theorem foldl_set_lookup_of_not_mem (l : List (Option Entity)) (acc : GoMap Value) (k : String)
    (hk : ∀ x ∈ l, Entity.GetType x ≠ k) :
    GoMap.lookup (l.foldl
      (fun acc x => GoMap.set acc (Entity.GetType x) (Value.f32 (Entity.GetConfidence x))) acc) k
      = GoMap.lookup acc k := by
  induction l generalizing acc with
  | nil => rfl
  | cons x xs ih =>
    have hx : Entity.GetType x ≠ k := hk x (List.mem_cons_self x xs)
    have hxs : ∀ y ∈ xs, Entity.GetType y ≠ k := fun y hy => hk y (List.mem_cons_of_mem x hy)
    rw [List.foldl_cons, ih _ hxs]
    exact GoMap.lookup_set_other acc (Entity.GetType x) k _ (fun h => hx h.symm)

theorem foldl_set_mem_keys (l : List (Option Entity)) (acc : GoMap Value) (j : String) :
    j ∈ GoMap.keys (l.foldl
      (fun acc x => GoMap.set acc (Entity.GetType x) (Value.f32 (Entity.GetConfidence x))) acc)
      ↔ j ∈ GoMap.keys acc ∨ j ∈ l.map Entity.GetType := by
  induction l generalizing acc with
  | nil => simp
  | cons x xs ih =>
    rw [List.foldl_cons, ih, GoMap.mem_keys_set]
    simp only [List.map_cons, List.mem_cons]
    tauto

theorem foldl_set_nodup_keys (l : List (Option Entity)) (acc : GoMap Value)
    (hacc : (GoMap.keys acc).Nodup) :
    (GoMap.keys (l.foldl
      (fun acc x => GoMap.set acc (Entity.GetType x) (Value.f32 (Entity.GetConfidence x)))
      acc)).Nodup := by
  induction l generalizing acc with
  | nil => exact hacc
  | cons x xs ih =>
    rw [List.foldl_cons]
    exact ih _ (GoMap.nodup_keys_set acc _ _ hacc)

theorem foldl_set_of_nodup (l : List (Option Entity)) (acc : GoMap Value)
    (hl : (l.map Entity.GetType).Nodup)
    (hdisj : ∀ x ∈ l, Entity.GetType x ∉ GoMap.keys acc) :
    l.foldl
      (fun acc x => GoMap.set acc (Entity.GetType x) (Value.f32 (Entity.GetConfidence x))) acc
      = acc ++ l.map (fun x => (Entity.GetType x, Value.f32 (Entity.GetConfidence x))) := by
  induction l generalizing acc with
  | nil => simp
  | cons x xs ih =>
    have hl' : Entity.GetType x ∉ xs.map Entity.GetType ∧ (xs.map Entity.GetType).Nodup := by
      simpa using hl
    have hx : Entity.GetType x ∉ GoMap.keys acc := hdisj x (List.mem_cons_self x xs)
    rw [List.foldl_cons, GoMap.set_of_not_mem acc _ _ hx]
    rw [ih _ hl'.2]
    · simp
    · intro y hy hmem
      have hmem' : Entity.GetType y ∈ List.map Prod.fst
          (acc ++ [(Entity.GetType x, Value.f32 (Entity.GetConfidence x))]) := hmem
      rw [List.map_append, List.mem_append] at hmem'
      rcases hmem' with h | h
      · exact hdisj y (List.mem_cons_of_mem x hy) h
      · have hxy : Entity.GetType y = Entity.GetType x := by simpa using h
        apply hl'.1
        rw [← hxy]
        exact List.mem_map_of_mem Entity.GetType hy

theorem attributesOf_of_nodup (entities : List (Option Entity))
    (h : (entities.map Entity.GetType).Nodup) :
    attributesOf entities
      = entities.map (fun x => (Entity.GetType x, Value.f32 (Entity.GetConfidence x))) := by
  rw [attributesOf_eq, foldl_set_of_nodup entities [] h (by simp [GoMap.keys])]
  simp

theorem attributesOf_lookup_last (pre post : List (Option Entity)) (e : Option Entity)
    (hpost : ∀ x ∈ post, Entity.GetType x ≠ Entity.GetType e) :
    GoMap.lookup (attributesOf (pre ++ e :: post)) (Entity.GetType e)
      = some (Value.f32 (Entity.GetConfidence e)) := by
  rw [attributesOf_eq, List.foldl_append, List.foldl_cons,
    foldl_set_lookup_of_not_mem post _ _ hpost]
  exact GoMap.lookup_set_same _ _ _

theorem attributesOf_mem_keys (entities : List (Option Entity)) (j : String) :
    j ∈ GoMap.keys (attributesOf entities) ↔ j ∈ entities.map Entity.GetType := by
  rw [attributesOf_eq, foldl_set_mem_keys]
  simp [GoMap.keys]

theorem attributesOf_nodup_keys (entities : List (Option Entity)) :
    (GoMap.keys (attributesOf entities)).Nodup := by
  rw [attributesOf_eq]
  exact foldl_set_nodup_keys entities [] (by simp [GoMap.keys])

theorem attributesOf_lookup_of_nodup (entities : List (Option Entity))
    (h : (entities.map Entity.GetType).Nodup) (x : Option Entity) (hx : x ∈ entities) :
    GoMap.lookup (attributesOf entities) (Entity.GetType x)
      = some (Value.f32 (Entity.GetConfidence x)) := by
  obtain ⟨pre, post, rfl⟩ := List.append_of_mem hx
  apply attributesOf_lookup_last
  intro y hy hyx
  rw [List.map_append, List.map_cons] at h
  have h2 : (Entity.GetType x :: post.map Entity.GetType).Nodup := (List.nodup_append.mp h).2.1
  have h3 : Entity.GetType x ∉ post.map Entity.GetType := (List.nodup_cons.mp h2).1
  apply h3
  rw [← hyx]
  exact List.mem_map_of_mem Entity.GetType hy

theorem sessionParamsWith_lookup_same (params : Option (GoMap Value)) (attributes : GoMap Value) :
    GoMap.lookup (sessionParamsWith params attributes) "content-moderation"
      = some (Value.map attributes) := by
  unfold sessionParamsWith
  exact GoMap.lookup_set_same _ _ _

/-! ## The handler on each path -/

theorem rateToxicityContentModeration_client_error {Res : Type} (env : Env Res)
    (content : String) (e : GoError) (h : env.newDocumentProcessorClient apiEndpoint = some e) :
    rateToxicityContentModeration env content =
      { trace := [Event.newDocumentProcessorClient apiEndpoint,
                  Event.logPrintf "error creating Document Processor client: %v" [LogArg.err e]]
        resp := some { document := none }
        err := some e } := by
  simp [rateToxicityContentModeration, h]

theorem rateToxicityContentModeration_client_ok {Res : Type} (env : Env Res)
    (content : String) (h : env.newDocumentProcessorClient apiEndpoint = none) :
    rateToxicityContentModeration env content =
      { trace := [Event.newDocumentProcessorClient apiEndpoint,
                  Event.processDocument (processRequest env.environ content),
                  Event.close]
        resp := (env.processDocument (processRequest env.environ content)).1
        err := (env.processDocument (processRequest env.environ content)).2 } := by
  simp [rateToxicityContentModeration, h]

theorem rateToxicityContentModeration_handedParams {Res : Type} (env : Env Res)
    (content : String) : handedParams (rateToxicityContentModeration env content).trace = [] := by
  cases h : env.newDocumentProcessorClient apiEndpoint with
  | none => simp [rateToxicityContentModeration, h, handedParams]
  | some e => simp [rateToxicityContentModeration, h, handedParams]

theorem rateToxicityContentModeration_clientCalls {Res : Type} (env : Env Res)
    (content : String) :
    clientCalls (rateToxicityContentModeration env content).trace = [apiEndpoint] := by
  cases h : env.newDocumentProcessorClient apiEndpoint with
  | none => simp [rateToxicityContentModeration, h, clientCalls]
  | some e => simp [rateToxicityContentModeration, h, clientCalls]

theorem rateToxicityContentModeration_processCalls_length {Res : Type} (env : Env Res)
    (content : String) :
    (processCalls (rateToxicityContentModeration env content).trace).length ≤ 1 := by
  cases h : env.newDocumentProcessorClient apiEndpoint with
  | none => simp [rateToxicityContentModeration, h, processCalls]
  | some e => simp [rateToxicityContentModeration, h, processCalls]

theorem analyzeCommentHandler_of_error {Res : Type} (env : Env Res) (res : Res)
    (req : WebhookRequest) (e : GoError) (htext : req.text ≠ "")
    (herr : (rateToxicityContentModeration env req.text).err = some e) :
    analyzeCommentHandler env res req =
      { trace := (rateToxicityContentModeration env req.text).trace ++
          [Event.logPrintf "unable to process document: %v" [LogArg.err e]]
        res := res
        outcome := Outcome.returned (some e) } := by
  simp [analyzeCommentHandler, WebhookRequest.GetText, htext, herr]

theorem analyzeCommentHandler_of_success {Res : Type} (env : Env Res) (res : Res)
    (req : WebhookRequest) (doc : Document) (htext : req.text ≠ "")
    (hresp : (rateToxicityContentModeration env req.text).resp = some { document := some doc })
    (herr : (rateToxicityContentModeration env req.text).err = none) :
    analyzeCommentHandler env res req =
      { trace := (rateToxicityContentModeration env req.text).trace ++
          [Event.addSessionParameters
            (sessionParamsWith req.sessionParameters (attributesOf doc.entities))] ++
          (match (env.addSessionParameters res
              (sessionParamsWith req.sessionParameters (attributesOf doc.entities))).2 with
            | some e =>
              [Event.logPrintf "unable to add content-moderation session params: %v"
                [LogArg.err e]]
            | none => []) ++
          [Event.logPrintf "%+v" [LogArg.res (env.addSessionParameters res
              (sessionParamsWith req.sessionParameters (attributesOf doc.entities))).1]]
        res := (env.addSessionParameters res
              (sessionParamsWith req.sessionParameters (attributesOf doc.entities))).1
        outcome := Outcome.returned none } := by
  simp [analyzeCommentHandler, WebhookRequest.GetText, WebhookRequest.GetSessionParameters,
    htext, herr, hresp]

theorem handedParams_of_success {Res : Type} (env : Env Res) (res : Res)
    (req : WebhookRequest) (doc : Document) (htext : req.text ≠ "")
    (hresp : (rateToxicityContentModeration env req.text).resp = some { document := some doc })
    (herr : (rateToxicityContentModeration env req.text).err = none) :
    handedParams (analyzeCommentHandler env res req).trace =
      [sessionParamsWith req.sessionParameters (attributesOf doc.entities)] := by
  rw [analyzeCommentHandler_of_success env res req doc htext hresp herr]
  have h0 := rateToxicityContentModeration_handedParams env req.text
  unfold handedParams at h0 ⊢
  simp only [List.filterMap_append, h0]
  cases (env.addSessionParameters res
      (sessionParamsWith req.sessionParameters (attributesOf doc.entities))).2 <;> simp

/-! ## Input validation -/

/-- C1: a request whose text is the empty string, whatever its session parameters, makes
`analyzeCommentHandler` return the non-nil error "no text provided" without making any
call: no Document AI client is requested (every run of `rateToxicityContentModeration`
requests one), no `ProcessDocument` is sent, `AddSessionParameters` is not called, and the
response is the one received. -/
theorem analyzeCommentHandler_empty_text {Res : Type} (env : Env Res) (res : Res)
    (params : Option (GoMap Value)) :
    (analyzeCommentHandler env res { text := "", sessionParameters := params }).outcome
        = Outcome.returned (some { msg := "no text provided" }) ∧
    (analyzeCommentHandler env res { text := "", sessionParameters := params }).trace = [] ∧
    clientCalls (analyzeCommentHandler env res
        { text := "", sessionParameters := params }).trace = [] ∧
    processCalls (analyzeCommentHandler env res
        { text := "", sessionParameters := params }).trace = [] ∧
    handedParams (analyzeCommentHandler env res
        { text := "", sessionParameters := params }).trace = [] ∧
    (analyzeCommentHandler env res { text := "", sessionParameters := params }).res = res ∧
    (∀ content, clientCalls (rateToxicityContentModeration env content).trace
        = [apiEndpoint]) := by
  refine ⟨?_, ?_, ?_, ?_, ?_, ?_, ?_⟩
  · simp [analyzeCommentHandler, WebhookRequest.GetText]
  · simp [analyzeCommentHandler, WebhookRequest.GetText]
  · simp [analyzeCommentHandler, WebhookRequest.GetText, clientCalls]
  · simp [analyzeCommentHandler, WebhookRequest.GetText, processCalls]
  · simp [analyzeCommentHandler, WebhookRequest.GetText, handedParams]
  · simp [analyzeCommentHandler, WebhookRequest.GetText]
  · exact rateToxicityContentModeration_clientCalls env

/-! ## Classification failure -/

/-- C3: for a request with non-empty text, when the classification fails with error `e`,
either at client creation or at the `ProcessDocument` call, `analyzeCommentHandler`
returns that same `e`, requests one client and sends at most one `ProcessDocument` (no
second attempt), never calls `AddSessionParameters`, and leaves the response as
received. -/
theorem analyzeCommentHandler_classification_error {Res : Type} (env : Env Res) (res : Res)
    (req : WebhookRequest) (e : GoError) (htext : req.text ≠ "")
    (hfail : env.newDocumentProcessorClient apiEndpoint = some e ∨
      (env.newDocumentProcessorClient apiEndpoint = none ∧
        (env.processDocument (processRequest env.environ req.text)).2 = some e)) :
    (analyzeCommentHandler env res req).outcome = Outcome.returned (some e) ∧
    (analyzeCommentHandler env res req).res = res ∧
    handedParams (analyzeCommentHandler env res req).trace = [] ∧
    clientCalls (analyzeCommentHandler env res req).trace = [apiEndpoint] ∧
    (processCalls (analyzeCommentHandler env res req).trace).length ≤ 1 := by
  have herr : (rateToxicityContentModeration env req.text).err = some e := by
    rcases hfail with h | ⟨h, h2⟩
    · rw [rateToxicityContentModeration_client_error env req.text e h]
    · rw [rateToxicityContentModeration_client_ok env req.text h]
      exact h2
  rw [analyzeCommentHandler_of_error env res req e htext herr]
  refine ⟨rfl, rfl, ?_, ?_, ?_⟩
  · have h0 := rateToxicityContentModeration_handedParams env req.text
    unfold handedParams at h0 ⊢
    simp [List.filterMap_append, h0]
  · have h0 := rateToxicityContentModeration_clientCalls env req.text
    unfold clientCalls at h0 ⊢
    simp [List.filterMap_append, h0]
  · have h0 := rateToxicityContentModeration_processCalls_length env req.text
    unfold processCalls at h0 ⊢
    simpa [List.filterMap_append] using h0

/-- C3, at a failing client creation and at a failing `ProcessDocument` call. -/
theorem analyzeCommentHandler_classification_error_witness :
    ((analyzeCommentHandler
        (sampleEnv (some "p") (some { msg := "dial" }) (classified []) none) []
        (sampleRequest none)).outcome = Outcome.returned (some { msg := "dial" }) ∧
      (analyzeCommentHandler
        (sampleEnv (some "p") (some { msg := "dial" }) (classified []) none) []
        (sampleRequest none)).res = []) ∧
    ((analyzeCommentHandler
        (sampleEnv (some "p") none (none, some { msg := "quota" }) none) []
        (sampleRequest none)).outcome = Outcome.returned (some { msg := "quota" }) ∧
      handedParams (analyzeCommentHandler
        (sampleEnv (some "p") none (none, some { msg := "quota" }) none) []
        (sampleRequest none)).trace = []) :=
  ⟨⟨(analyzeCommentHandler_classification_error
        (sampleEnv (some "p") (some { msg := "dial" }) (classified []) none) []
        (sampleRequest none) { msg := "dial" } (by decide) (Or.inl rfl)).1,
    (analyzeCommentHandler_classification_error
        (sampleEnv (some "p") (some { msg := "dial" }) (classified []) none) []
        (sampleRequest none) { msg := "dial" } (by decide) (Or.inl rfl)).2.1⟩,
   ⟨(analyzeCommentHandler_classification_error
        (sampleEnv (some "p") none (none, some { msg := "quota" }) none) []
        (sampleRequest none) { msg := "quota" } (by decide) (Or.inr ⟨rfl, rfl⟩)).1,
    (analyzeCommentHandler_classification_error
        (sampleEnv (some "p") none (none, some { msg := "quota" }) none) []
        (sampleRequest none) { msg := "quota" } (by decide) (Or.inr ⟨rfl, rfl⟩)).2.2.1⟩⟩

/-! ## The classification call -/

/-- C9: for every text, when the Document AI client is created, the run of
`rateToxicityContentModeration` is: request the client, send one `ProcessDocument`, close
the client. The one request sent carries an inline document whose text is the given text
and whose MIME type is "text/plain", and names the configured processor; the function
returns the response and the error of that call as the call gave them. -/
theorem rateToxicityContentModeration_single_call {Res : Type} (env : Env Res)
    (content : String) (hclient : env.newDocumentProcessorClient apiEndpoint = none) :
    ∃ q : ProcessRequest,
      (rateToxicityContentModeration env content).trace =
        [Event.newDocumentProcessorClient apiEndpoint, Event.processDocument q, Event.close] ∧
      processCalls (rateToxicityContentModeration env content).trace = [q] ∧
      q.inlineDocument.text = content ∧
      q.inlineDocument.mimeType = "text/plain" ∧
      q.name = contentModerationProcessorName env.environ ∧
      (rateToxicityContentModeration env content).resp = (env.processDocument q).1 ∧
      (rateToxicityContentModeration env content).err = (env.processDocument q).2 := by
  refine ⟨processRequest env.environ content, ?_⟩
  rw [rateToxicityContentModeration_client_ok env content hclient]
  refine ⟨rfl, ?_, rfl, rfl, rfl, rfl, rfl⟩
  simp [processCalls]

/-- C9, at a call that succeeds: the text "you are worthless" sent to processor "p". -/
theorem rateToxicityContentModeration_single_call_witness :
    ∃ q : ProcessRequest,
      (rateToxicityContentModeration
          (sampleEnv (some "p") none (classified distinctEntities) none)
          "you are worthless").trace =
        [Event.newDocumentProcessorClient apiEndpoint, Event.processDocument q, Event.close] ∧
      processCalls (rateToxicityContentModeration
          (sampleEnv (some "p") none (classified distinctEntities) none)
          "you are worthless").trace = [q] ∧
      q.inlineDocument.text = "you are worthless" ∧
      q.inlineDocument.mimeType = "text/plain" ∧
      q.name = contentModerationProcessorName
          (sampleEnv (some "p") none (classified distinctEntities) none).environ ∧
      (rateToxicityContentModeration
          (sampleEnv (some "p") none (classified distinctEntities) none)
          "you are worthless").resp =
        ((sampleEnv (some "p") none (classified distinctEntities) none).processDocument q).1 ∧
      (rateToxicityContentModeration
          (sampleEnv (some "p") none (classified distinctEntities) none)
          "you are worthless").err =
        ((sampleEnv (some "p") none (classified distinctEntities) none).processDocument q).2 :=
  rateToxicityContentModeration_single_call
    (sampleEnv (some "p") none (classified distinctEntities) none) "you are worthless" rfl

/-! ## Start-up -/

/-- C8: when `CONTENT_MODERATION_NAME` is unset or set to the empty string, `envCheck`
yields the empty processor identifier and `main` ends in `log.Fatal` right after its first
log line: no server is created, no route is registered, nothing listens. When the
variable is set to a non-empty value, `envCheck` yields that value and `main` goes on to
create the server, register `/analyze` and listen. -/
theorem main_requires_processor_name {Res : Type} (env : Env Res) :
    ((env.environ "CONTENT_MODERATION_NAME" = none ∨
        env.environ "CONTENT_MODERATION_NAME" = some "") →
      envCheck env.environ "CONTENT_MODERATION_NAME" "" = "" ∧
      (main env).ending = MainEnd.fatal ∧
      (main env).trace =
        [Event.logPrintf "cx-content-moderation" [],
         Event.logFatal "need to provide CONTENT_MODERATION_NAME reference to name of Content Moderation API Document Processor name"] ∧
      (∀ ev ∈ (main env).trace, Event.isServerCall ev = false)) ∧
    (∀ v : String, env.environ "CONTENT_MODERATION_NAME" = some v → v ≠ "" →
      envCheck env.environ "CONTENT_MODERATION_NAME" "" = v ∧
      (main env).ending = MainEnd.served ∧
      (main env).trace =
        [Event.logPrintf "cx-content-moderation" [],
         Event.newServer (":" ++ port env.environ),
         Event.handleCx "/analyze",
         Event.listenAndServe]) := by
  constructor
  · intro h
    have hname : envCheck env.environ "CONTENT_MODERATION_NAME" "" = "" := by
      rcases h with h | h <;> simp [envCheck, LookupEnv, h]
    have hmain : main env =
        { trace := [Event.logPrintf "cx-content-moderation" [],
            Event.logFatal "need to provide CONTENT_MODERATION_NAME reference to name of Content Moderation API Document Processor name"]
          ending := MainEnd.fatal } := by
      simp [main, contentModerationProcessorName, hname]
    refine ⟨hname, ?_, ?_, ?_⟩
    · rw [hmain]
    · rw [hmain]
    · rw [hmain]
      intro ev hev
      simp only [List.mem_cons, List.mem_singleton, List.not_mem_nil, or_false] at hev
      rcases hev with rfl | rfl <;> rfl
  · intro v hv hne
    have hname : envCheck env.environ "CONTENT_MODERATION_NAME" "" = v := by
      simp [envCheck, LookupEnv, hv, hne]
    have hmain : main env =
        { trace := [Event.logPrintf "cx-content-moderation" [],
            Event.newServer (":" ++ port env.environ),
            Event.handleCx "/analyze",
            Event.listenAndServe]
          ending := MainEnd.served } := by
      simp [main, contentModerationProcessorName, hname, hne]
    refine ⟨hname, ?_, ?_⟩
    · rw [hmain]
    · rw [hmain]

/-- C8, with the variable unset, set to the empty string, and set to "p". -/
theorem main_requires_processor_name_witness :
    (main (sampleEnv none none (classified []) none)).ending = MainEnd.fatal ∧
    (main (sampleEnv (some "") none (classified []) none)).ending = MainEnd.fatal ∧
    (envCheck (sampleEnv (some "p") none (classified []) none).environ
        "CONTENT_MODERATION_NAME" "" = "p" ∧
      (main (sampleEnv (some "p") none (classified []) none)).ending = MainEnd.served) :=
  ⟨((main_requires_processor_name (sampleEnv none none (classified []) none)).1
      (Or.inl rfl)).2.1,
   ((main_requires_processor_name (sampleEnv (some "") none (classified []) none)).1
      (Or.inr rfl)).2.1,
   ((main_requires_processor_name (sampleEnv (some "p") none (classified []) none)).2
      "p" rfl (by decide)).1,
   ((main_requires_processor_name (sampleEnv (some "p") none (classified []) none)).2
      "p" rfl (by decide)).2.1⟩

/-! ## The scores handed to the response -/

/-- C2, refuted as stated: the classification result `TOXIC: 0.1, TOXIC: 0.9` has two
pairs, and the map handed to the response does not hold under "content-moderation" a map
of two entries with each pair's name mapped to that pair's score. -/
theorem analyzeCommentHandler_repeated_names_counterexample :
    ¬ ∃ p m,
      handedParams (analyzeCommentHandler
          (sampleEnv (some "p") none (classified repeatedEntities) none) []
          (sampleRequest none)).trace = [p] ∧
      GoMap.lookup p "content-moderation" = some (Value.map m) ∧
      m.length = repeatedEntities.length ∧
      ∀ x ∈ repeatedEntities,
        GoMap.lookup m (Entity.GetType x) = some (Value.f32 (Entity.GetConfidence x)) := by
  rintro ⟨p, m, hp, hm, hlen, -⟩
  have h := handedParams_of_success
    (sampleEnv (some "p") none (classified repeatedEntities) none) []
    (sampleRequest none) { text := "", mimeType := "", entities := repeatedEntities }
    (by decide) rfl rfl
  rw [h] at hp
  have hp' : sessionParamsWith none (attributesOf repeatedEntities) = p := by
    simpa [sampleRequest] using hp
  subst hp'
  rw [sessionParamsWith_lookup_same] at hm
  have hm' : attributesOf repeatedEntities = m := by
    simpa using hm
  subst hm'
  have hone : (attributesOf repeatedEntities).length = 1 := rfl
  rw [hone] at hlen
  simp [repeatedEntities] at hlen

/-- C2, amended: for a request with non-empty text and a successful classification result
whose N entities have pairwise distinct attribute names, the one map handed to
`AddSessionParameters` holds under "content-moderation" a map with exactly N entries:
every entity's name is mapped to that entity's score unchanged, and every entry is the
name and score of an entity. -/
theorem analyzeCommentHandler_scores_of_distinct_names {Res : Type} (env : Env Res) (res : Res)
    (req : WebhookRequest) (doc : Document) (htext : req.text ≠ "")
    (hresp : (rateToxicityContentModeration env req.text).resp = some { document := some doc })
    (herr : (rateToxicityContentModeration env req.text).err = none)
    (hdistinct : (doc.entities.map Entity.GetType).Nodup) :
    ∃ p m,
      handedParams (analyzeCommentHandler env res req).trace = [p] ∧
      GoMap.lookup p "content-moderation" = some (Value.map m) ∧
      m.length = doc.entities.length ∧
      (∀ x ∈ doc.entities,
        GoMap.lookup m (Entity.GetType x) = some (Value.f32 (Entity.GetConfidence x))) ∧
      (∀ k v, GoMap.lookup m k = some v →
        ∃ x ∈ doc.entities, Entity.GetType x = k ∧ v = Value.f32 (Entity.GetConfidence x)) := by
  refine ⟨sessionParamsWith req.sessionParameters (attributesOf doc.entities),
    attributesOf doc.entities,
    handedParams_of_success env res req doc htext hresp herr,
    sessionParamsWith_lookup_same _ _, ?_, ?_, ?_⟩
  · rw [attributesOf_of_nodup doc.entities hdistinct, List.length_map]
  · exact attributesOf_lookup_of_nodup doc.entities hdistinct
  · intro k v hkv
    have hmem := GoMap.mem_of_lookup _ k v hkv
    rw [attributesOf_of_nodup doc.entities hdistinct, List.mem_map] at hmem
    obtain ⟨x, hx, hxe⟩ := hmem
    have h1 : Entity.GetType x = k := congrArg Prod.fst hxe
    have h2 : Value.f32 (Entity.GetConfidence x) = v := congrArg Prod.snd hxe
    exact ⟨x, hx, h1, h2.symm⟩

/-- C2 amended, at the text "you are worthless" classified as `TOXIC: 0.92, INSULT: 0.87`. -/
theorem analyzeCommentHandler_scores_of_distinct_names_witness :
    ∃ p m,
      handedParams (analyzeCommentHandler
          (sampleEnv (some "p") none (classified distinctEntities) none) []
          (sampleRequest none)).trace = [p] ∧
      GoMap.lookup p "content-moderation" = some (Value.map m) ∧
      m.length = distinctEntities.length ∧
      (∀ x ∈ distinctEntities,
        GoMap.lookup m (Entity.GetType x) = some (Value.f32 (Entity.GetConfidence x))) ∧
      (∀ k v, GoMap.lookup m k = some v →
        ∃ x ∈ distinctEntities, Entity.GetType x = k ∧ v = Value.f32 (Entity.GetConfidence x)) :=
  analyzeCommentHandler_scores_of_distinct_names
    (sampleEnv (some "p") none (classified distinctEntities) none) []
    (sampleRequest none) { text := "", mimeType := "", entities := distinctEntities }
    (by decide) rfl rfl (by decide)

/-- C10: for a request with non-empty text and a successful classification result, take
any entity `e` of the sequence after which no entity has the same attribute name (the
last one of its name, however many precede it): the "content-moderation" map handed to
the response holds the score of `e` under that name. The keys of the map are exactly the
attribute names of the sequence, each once. -/
theorem analyzeCommentHandler_last_duplicate_wins {Res : Type} (env : Env Res) (res : Res)
    (req : WebhookRequest) (doc : Document) (pre post : List (Option Entity))
    (e : Option Entity) (htext : req.text ≠ "")
    (hresp : (rateToxicityContentModeration env req.text).resp = some { document := some doc })
    (herr : (rateToxicityContentModeration env req.text).err = none)
    (hsplit : doc.entities = pre ++ e :: post)
    (hlast : ∀ x ∈ post, Entity.GetType x ≠ Entity.GetType e) :
    ∃ p m,
      handedParams (analyzeCommentHandler env res req).trace = [p] ∧
      GoMap.lookup p "content-moderation" = some (Value.map m) ∧
      GoMap.lookup m (Entity.GetType e) = some (Value.f32 (Entity.GetConfidence e)) ∧
      (∀ k, k ∈ GoMap.keys m ↔ k ∈ doc.entities.map Entity.GetType) ∧
      (GoMap.keys m).Nodup := by
  refine ⟨sessionParamsWith req.sessionParameters (attributesOf doc.entities),
    attributesOf doc.entities,
    handedParams_of_success env res req doc htext hresp herr,
    sessionParamsWith_lookup_same _ _, ?_, ?_, ?_⟩
  · rw [hsplit]
    exact attributesOf_lookup_last pre post e hlast
  · exact attributesOf_mem_keys doc.entities
  · exact attributesOf_nodup_keys doc.entities

/-- C10, at `TOXIC: 0.1, TOXIC: 0.9`: the second score is the one kept. -/
theorem analyzeCommentHandler_last_duplicate_wins_witness :
    ∃ p m,
      handedParams (analyzeCommentHandler
          (sampleEnv (some "p") none (classified repeatedEntities) none) []
          (sampleRequest none)).trace = [p] ∧
      GoMap.lookup p "content-moderation" = some (Value.map m) ∧
      GoMap.lookup m "TOXIC" = some (Value.f32 { bits := 1063675494 }) ∧
      (∀ k, k ∈ GoMap.keys m ↔ k ∈ repeatedEntities.map Entity.GetType) ∧
      (GoMap.keys m).Nodup :=
  analyzeCommentHandler_last_duplicate_wins
    (sampleEnv (some "p") none (classified repeatedEntities) none) []
    (sampleRequest none) { text := "", mimeType := "", entities := repeatedEntities }
    [some { type := "TOXIC", confidence := { bits := 1036831949 } }] []
    (some { type := "TOXIC", confidence := { bits := 1063675494 } })
    (by decide) rfl rfl rfl (by simp)

/-! ## Inbound session parameters -/

/-- C4, refuted as stated: a request of a later turn carries the "content-moderation"
entry a previous turn left; the map handed to the response does not hold every inbound
key with the value it had. -/
theorem analyzeCommentHandler_inbound_params_counterexample :
    ¬ ∃ p,
      handedParams (analyzeCommentHandler
          (sampleEnv (some "p") none (classified distinctEntities) none) []
          (sampleRequest (some laterTurnParams))).trace = [p] ∧
      ∀ k v, GoMap.lookup laterTurnParams k = some v → GoMap.lookup p k = some v := by
  rintro ⟨p, hp, hall⟩
  have h := handedParams_of_success
    (sampleEnv (some "p") none (classified distinctEntities) none) []
    (sampleRequest (some laterTurnParams))
    { text := "", mimeType := "", entities := distinctEntities } (by decide) rfl rfl
  rw [h] at hp
  have hp' : sessionParamsWith (some laterTurnParams) (attributesOf distinctEntities) = p := by
    simpa [sampleRequest] using hp
  subst hp'
  have hstale := hall "content-moderation" (Value.string "stale") rfl
  rw [sessionParamsWith_lookup_same] at hstale
  simp at hstale

/-- C4, amended: for a request with non-empty text that carries the session-parameter map
`m`, and a successful classification result, the one map handed to `AddSessionParameters`
holds every key of `m` other than "content-moderation" with the value it had in `m`, and
holds the new scores under "content-moderation"; its keys are those of `m` and
"content-moderation". -/
theorem analyzeCommentHandler_preserves_other_params {Res : Type} (env : Env Res) (res : Res)
    (req : WebhookRequest) (m : GoMap Value) (doc : Document) (htext : req.text ≠ "")
    (hparams : req.sessionParameters = some m)
    (hresp : (rateToxicityContentModeration env req.text).resp = some { document := some doc })
    (herr : (rateToxicityContentModeration env req.text).err = none) :
    ∃ p,
      handedParams (analyzeCommentHandler env res req).trace = [p] ∧
      (∀ k, k ≠ "content-moderation" → GoMap.lookup p k = GoMap.lookup m k) ∧
      GoMap.lookup p "content-moderation" = some (Value.map (attributesOf doc.entities)) ∧
      (∀ k, k ∈ GoMap.keys p ↔ k = "content-moderation" ∨ k ∈ GoMap.keys m) := by
  refine ⟨sessionParamsWith req.sessionParameters (attributesOf doc.entities),
    handedParams_of_success env res req doc htext hresp herr, ?_,
    sessionParamsWith_lookup_same _ _, ?_⟩
  · intro k hk
    rw [hparams]
    exact GoMap.lookup_set_other m "content-moderation" k _ hk
  · intro k
    rw [hparams]
    exact GoMap.mem_keys_set m "content-moderation" k _

/-- C4 amended, at a later-turn request: the user name is kept, the scores are new. -/
theorem analyzeCommentHandler_preserves_other_params_witness :
    ∃ p,
      handedParams (analyzeCommentHandler
          (sampleEnv (some "p") none (classified distinctEntities) none) []
          (sampleRequest (some laterTurnParams))).trace = [p] ∧
      (∀ k, k ≠ "content-moderation" → GoMap.lookup p k = GoMap.lookup laterTurnParams k) ∧
      GoMap.lookup p "content-moderation" = some (Value.map (attributesOf distinctEntities)) ∧
      (∀ k, k ∈ GoMap.keys p ↔ k = "content-moderation" ∨ k ∈ GoMap.keys laterTurnParams) :=
  analyzeCommentHandler_preserves_other_params
    (sampleEnv (some "p") none (classified distinctEntities) none) []
    (sampleRequest (some laterTurnParams)) laterTurnParams
    { text := "", mimeType := "", entities := distinctEntities } (by decide) rfl rfl rfl

/-- C5: for a request with non-empty text whose session parameters are nil, and a
successful classification result, `analyzeCommentHandler` returns normally with a nil
error, and the one map handed to `AddSessionParameters` is a fresh map whose only key is
"content-moderation", holding the flattened scores. -/
theorem analyzeCommentHandler_nil_params {Res : Type} (env : Env Res) (res : Res)
    (req : WebhookRequest) (doc : Document) (htext : req.text ≠ "")
    (hnil : req.sessionParameters = none)
    (hresp : (rateToxicityContentModeration env req.text).resp = some { document := some doc })
    (herr : (rateToxicityContentModeration env req.text).err = none) :
    (analyzeCommentHandler env res req).outcome = Outcome.returned none ∧
    handedParams (analyzeCommentHandler env res req).trace =
      [[("content-moderation", Value.map (attributesOf doc.entities))]] ∧
    GoMap.keys [("content-moderation", Value.map (attributesOf doc.entities))]
      = ["content-moderation"] := by
  refine ⟨?_, ?_, rfl⟩
  · rw [analyzeCommentHandler_of_success env res req doc htext hresp herr]
  · rw [handedParams_of_success env res req doc htext hresp herr, hnil]
    rfl

/-- C5, at the text "you are worthless" with nil session parameters. -/
theorem analyzeCommentHandler_nil_params_witness :
    (analyzeCommentHandler
        (sampleEnv (some "p") none (classified distinctEntities) none) []
        (sampleRequest none)).outcome = Outcome.returned none ∧
    handedParams (analyzeCommentHandler
        (sampleEnv (some "p") none (classified distinctEntities) none) []
        (sampleRequest none)).trace =
      [[("content-moderation", Value.map (attributesOf distinctEntities))]] ∧
    GoMap.keys [("content-moderation", Value.map (attributesOf distinctEntities))]
      = ["content-moderation"] :=
  analyzeCommentHandler_nil_params
    (sampleEnv (some "p") none (classified distinctEntities) none) []
    (sampleRequest none) { text := "", mimeType := "", entities := distinctEntities }
    (by decide) rfl rfl rfl

/-! ## A failing merge -/

/-- C7: for a request with non-empty text and a successful classification result, when
`AddSessionParameters` returns the error `e` for the map it is handed,
`analyzeCommentHandler` returns nil all the same; `e` is logged and not returned. -/
theorem analyzeCommentHandler_merge_error_logged {Res : Type} (env : Env Res) (res : Res)
    (req : WebhookRequest) (doc : Document) (e : GoError) (htext : req.text ≠ "")
    (hresp : (rateToxicityContentModeration env req.text).resp = some { document := some doc })
    (herr : (rateToxicityContentModeration env req.text).err = none)
    (hmerge : (env.addSessionParameters res
        (sessionParamsWith req.sessionParameters (attributesOf doc.entities))).2 = some e) :
    (analyzeCommentHandler env res req).outcome = Outcome.returned none ∧
    handedParams (analyzeCommentHandler env res req).trace =
      [sessionParamsWith req.sessionParameters (attributesOf doc.entities)] ∧
    Event.logPrintf "unable to add content-moderation session params: %v" [LogArg.err e]
      ∈ (analyzeCommentHandler env res req).trace := by
  refine ⟨?_, handedParams_of_success env res req doc htext hresp herr, ?_⟩
  · rw [analyzeCommentHandler_of_success env res req doc htext hresp herr]
  · rw [analyzeCommentHandler_of_success env res req doc htext hresp herr]
    simp [hmerge]

/-- C7, at a merge that fails with "bad value". -/
theorem analyzeCommentHandler_merge_error_logged_witness :
    (analyzeCommentHandler
        (sampleEnv (some "p") none (classified distinctEntities) (some { msg := "bad value" }))
        [] (sampleRequest none)).outcome = Outcome.returned none ∧
    handedParams (analyzeCommentHandler
        (sampleEnv (some "p") none (classified distinctEntities) (some { msg := "bad value" }))
        [] (sampleRequest none)).trace =
      [sessionParamsWith (sampleRequest none).sessionParameters
        (attributesOf distinctEntities)] ∧
    Event.logPrintf "unable to add content-moderation session params: %v"
        [LogArg.err { msg := "bad value" }]
      ∈ (analyzeCommentHandler
        (sampleEnv (some "p") none (classified distinctEntities) (some { msg := "bad value" }))
        [] (sampleRequest none)).trace :=
  analyzeCommentHandler_merge_error_logged
    (sampleEnv (some "p") none (classified distinctEntities) (some { msg := "bad value" }))
    [] (sampleRequest none) { text := "", mimeType := "", entities := distinctEntities }
    { msg := "bad value" } (by decide) rfl rfl rfl

/-! ## The two endings -/

/-- C6, refuted as stated: when the classification succeeds and the merge fails leaving
the response as it was, `analyzeCommentHandler` returns success and the response carries
no "content-moderation" entry: neither of the two endings of the claim. -/
theorem analyzeCommentHandler_two_endings_counterexample :
    ¬ (((analyzeCommentHandler
          (sampleEnv (some "p") none (classified distinctEntities) (some { msg := "bad value" }))
          [] (sampleRequest none)).outcome = Outcome.returned none ∧
        ∃ m, GoMap.lookup (analyzeCommentHandler
          (sampleEnv (some "p") none (classified distinctEntities) (some { msg := "bad value" }))
          [] (sampleRequest none)).res "content-moderation" = some (Value.map m)) ∨
      ((∃ e, (analyzeCommentHandler
          (sampleEnv (some "p") none (classified distinctEntities) (some { msg := "bad value" }))
          [] (sampleRequest none)).outcome = Outcome.returned (some e)) ∧
        GoMap.lookup (analyzeCommentHandler
          (sampleEnv (some "p") none (classified distinctEntities) (some { msg := "bad value" }))
          [] (sampleRequest none)).res "content-moderation" = none)) := by
  have hrun := analyzeCommentHandler_of_success
    (sampleEnv (some "p") none (classified distinctEntities) (some { msg := "bad value" }))
    [] (sampleRequest none) { text := "", mimeType := "", entities := distinctEntities }
    (by decide) rfl rfl
  rw [hrun]
  rintro (⟨-, m, hm⟩ | ⟨⟨e, he⟩, -⟩)
  · simp [sampleEnv, GoMap.lookup] at hm
  · simp at he

/-- C6, amended: for every request and every outcome of the merge, and every
classification outcome that is an error or a response carrying a document,
`analyzeCommentHandler` ends in exactly one of two ways. Either it returns an error,
`AddSessionParameters` was not called and the response is the one received; or it
returns success, `AddSessionParameters` was called once with a map holding the scores
under "content-moderation", and the response is the one that call left, whether or not
the call reported an error. Holding the scores means: the map under "content-moderation"
is the one flattened from the entities of the classification result, its keys are
exactly their attribute names, and each name is mapped to the score of the last entity
of that name. -/
theorem analyzeCommentHandler_two_endings {Res : Type} (env : Env Res) (res : Res)
    (req : WebhookRequest)
    (hdoc : req.text ≠ "" → (rateToxicityContentModeration env req.text).err = none →
      ∃ doc, (rateToxicityContentModeration env req.text).resp
        = some { document := some doc }) :
    (((∃ e, (analyzeCommentHandler env res req).outcome = Outcome.returned (some e)) ∧
      handedParams (analyzeCommentHandler env res req).trace = [] ∧
      (analyzeCommentHandler env res req).res = res) ∨
    ((analyzeCommentHandler env res req).outcome = Outcome.returned none ∧
      ∃ doc p m,
        (rateToxicityContentModeration env req.text).resp = some { document := some doc } ∧
        handedParams (analyzeCommentHandler env res req).trace = [p] ∧
        GoMap.lookup p "content-moderation" = some (Value.map m) ∧
        m = attributesOf doc.entities ∧
        (∀ pre e post, doc.entities = pre ++ e :: post →
          (∀ x ∈ post, Entity.GetType x ≠ Entity.GetType e) →
          GoMap.lookup m (Entity.GetType e) = some (Value.f32 (Entity.GetConfidence e))) ∧
        (∀ k, k ∈ GoMap.keys m ↔ k ∈ doc.entities.map Entity.GetType) ∧
        (analyzeCommentHandler env res req).res = (env.addSessionParameters res p).1)) ∧
    ¬ ((∃ e, (analyzeCommentHandler env res req).outcome = Outcome.returned (some e)) ∧
      (analyzeCommentHandler env res req).outcome = Outcome.returned none) := by
  refine ⟨?_, ?_⟩
  swap
  · rintro ⟨⟨e, he⟩, hnone⟩
    rw [he] at hnone
    simp at hnone
  by_cases htext : req.text = ""
  · left
    have hrun : analyzeCommentHandler env res req =
        { trace := [], res := res,
          outcome := Outcome.returned (some { msg := "no text provided" }) } := by
      simp [analyzeCommentHandler, WebhookRequest.GetText, htext]
    rw [hrun]
    exact ⟨⟨_, rfl⟩, rfl, rfl⟩
  · cases herr : (rateToxicityContentModeration env req.text).err with
    | some e =>
      left
      rw [analyzeCommentHandler_of_error env res req e htext herr]
      refine ⟨⟨e, rfl⟩, ?_, rfl⟩
      have h0 := rateToxicityContentModeration_handedParams env req.text
      unfold handedParams at h0 ⊢
      simp [List.filterMap_append, h0]
    | none =>
      right
      obtain ⟨doc, hresp⟩ := hdoc htext herr
      refine ⟨?_, doc, sessionParamsWith req.sessionParameters (attributesOf doc.entities),
        attributesOf doc.entities, hresp,
        handedParams_of_success env res req doc htext hresp herr,
        sessionParamsWith_lookup_same _ _, rfl, ?_, attributesOf_mem_keys doc.entities, ?_⟩
      · rw [analyzeCommentHandler_of_success env res req doc htext hresp herr]
      · intro pre e post hsplit hlast
        rw [hsplit]
        exact attributesOf_lookup_last pre post e hlast
      · rw [analyzeCommentHandler_of_success env res req doc htext hresp herr]

/-- C6 amended, at a classification that succeeds and a merge that fails; the scores
flattened from `TOXIC: 0.92, INSULT: 0.87` are the two entries shown. -/
theorem analyzeCommentHandler_two_endings_witness :
    (((∃ e, (analyzeCommentHandler
          (sampleEnv (some "p") none (classified distinctEntities) (some { msg := "bad value" }))
          [] (sampleRequest none)).outcome = Outcome.returned (some e)) ∧
      handedParams (analyzeCommentHandler
          (sampleEnv (some "p") none (classified distinctEntities) (some { msg := "bad value" }))
          [] (sampleRequest none)).trace = [] ∧
      (analyzeCommentHandler
          (sampleEnv (some "p") none (classified distinctEntities) (some { msg := "bad value" }))
          [] (sampleRequest none)).res = []) ∨
    ((analyzeCommentHandler
          (sampleEnv (some "p") none (classified distinctEntities) (some { msg := "bad value" }))
          [] (sampleRequest none)).outcome = Outcome.returned none ∧
      ∃ doc p m,
        (rateToxicityContentModeration
          (sampleEnv (some "p") none (classified distinctEntities) (some { msg := "bad value" }))
          (sampleRequest none).text).resp = some { document := some doc } ∧
        handedParams (analyzeCommentHandler
          (sampleEnv (some "p") none (classified distinctEntities) (some { msg := "bad value" }))
          [] (sampleRequest none)).trace = [p] ∧
        GoMap.lookup p "content-moderation" = some (Value.map m) ∧
        m = attributesOf doc.entities ∧
        (∀ pre e post, doc.entities = pre ++ e :: post →
          (∀ x ∈ post, Entity.GetType x ≠ Entity.GetType e) →
          GoMap.lookup m (Entity.GetType e) = some (Value.f32 (Entity.GetConfidence e))) ∧
        (∀ k, k ∈ GoMap.keys m ↔ k ∈ doc.entities.map Entity.GetType) ∧
        (analyzeCommentHandler
          (sampleEnv (some "p") none (classified distinctEntities) (some { msg := "bad value" }))
          [] (sampleRequest none)).res =
          ((sampleEnv (some "p") none (classified distinctEntities) (some { msg := "bad value" })).addSessionParameters [] p).1)) ∧
    attributesOf distinctEntities =
      [("TOXIC", Value.f32 { bits := 1064011039 }),
       ("INSULT", Value.f32 { bits := 1063172178 })] :=
  ⟨(analyzeCommentHandler_two_endings
    (sampleEnv (some "p") none (classified distinctEntities) (some { msg := "bad value" }))
    [] (sampleRequest none) (fun _ _ => ⟨_, rfl⟩)).1, rfl⟩

end CxContentModeration
